import Mathlib

set_option maxRecDepth 100000

/-!
Verification development for the RentRelief Contract Risk Analysis Engine.

The TypeScript sources (`src/lib/geminiService.ts`,
`src/components/AnalysisResults.tsx`) are shallowly embedded here:
JavaScript strings are lists of characters, JSON values are an inductive
type, `JSON.parse` is a fuel-based recursive-descent parser, exceptions
are `Except`, and the async retry loop of `analyzeContractWithGemini` is
a pure function over a list of per-attempt transport outcomes that also
records the backoff sleeps it performs.
-/

namespace RentRelief

/-- JavaScript strings are modelled as lists of characters. -/
abbrev Str := List Char

/-- Whitespace characters relevant to `String.prototype.trim` and the
regular-expression class `\s` (space, tab, newline, carriage return). -/
def isWsChar : Char → Bool
  | ' ' => true
  | '\t' => true
  | '\n' => true
  | '\r' => true
  | _ => false

/-- The backtick character (code point 96), used by the code-fence markers. -/
def backtickCh : Char := Char.ofNat 96

/-- `s.trim()`: remove leading and trailing whitespace. -/
def strTrim (s : Str) : Str :=
  List.rdropWhile isWsChar (List.dropWhile isWsChar s)

/-- JSON values as produced by `JSON.parse`.  Numbers are modelled as
integers (the scores handled by the engine are integer-valued). -/
inductive Json where
  | null : Json
  | bool (b : Bool) : Json
  | num (n : Int) : Json
  | str (s : Str) : Json
  | arr (elems : List Json) : Json
  | obj (fields : List (Str × Json)) : Json

/-- JavaScript truthiness of a JSON value (`null`, `false`, `0` and the
empty string are falsy; every array and object is truthy). -/
def jsTruthy : Json → Bool
  | .null => false
  | .bool b => b
  | .num n => !(n == 0)
  | .str s => !s.isEmpty
  | .arr _ => true
  | .obj _ => true

/-- `typeof v === 'object'` for a JSON value: true exactly for `null`,
arrays and objects. -/
def typeofIsObject : Json → Bool
  | .null => true
  | .arr _ => true
  | .obj _ => true
  | _ => false

/-- Is this JSON value `null`?  Property access on `null` throws a
`TypeError` in JavaScript. -/
def isNullJson : Json → Bool
  | .null => true
  | _ => false

/-- Property read `v[key]` on a non-null JSON value: on an object the
last binding of the key wins (as with duplicate keys in `JSON.parse`);
on every other value the named properties used by the engine are
`undefined`, modelled as `none`. -/
def getField (v : Json) (key : Str) : Option Json :=
  match v with
  | .obj fields => fields.foldl (fun acc kv => if kv.1 == key then some kv.2 else acc) none
  | _ => none

/-- Digit run at the front of the input: its value and the rest. -/
def digitRunValue (ds : List Char) : Nat :=
  ds.foldl (fun acc c => 10 * acc + (c.toNat - '0'.toNat)) 0

/-- Parse one or more decimal digits. -/
def parseDigits (cs : List Char) : Option (Nat × List Char) :=
  let ds := cs.takeWhile Char.isDigit
  if ds.isEmpty then none else some (digitRunValue ds, cs.drop ds.length)

/-- Parse an optionally-signed integer literal (JSON numbers are
modelled as integers). -/
def parseNumberTok (cs : List Char) : Option (Int × List Char) :=
  match cs with
  | '-' :: rest =>
    match parseDigits rest with
    | some (n, r) => some (-(n : Int), r)
    | none => none
  | _ =>
    match parseDigits cs with
    | some (n, r) => some ((n : Int), r)
    | none => none

/-- Translation of the common JSON string escapes. -/
def escTable : List (Char × Char) :=
  [('"', '"'), ('\\', '\\'), ('/', '/'), ('n', '\n'), ('t', '\t'), ('r', '\r')]

def escCharOf (c : Char) : Option Char :=
  (escTable.find? (fun kv => kv.1 == c)).map (fun kv => kv.2)

/-- Body of a JSON string literal, after the opening quote: the decoded
characters and the input following the closing quote. -/
def parseStringBody : List Char → Option (Str × List Char)
  | [] => none
  | '"' :: rest => some ([], rest)
  | '\\' :: e :: rest =>
    match escCharOf e, parseStringBody rest with
    | some c, some (s, r) => some (c :: s, r)
    | _, _ => none
  | c :: rest =>
    match parseStringBody rest with
    | some (s, r) => some (c :: s, r)
    | none => none

/-- Leading whitespace skip. -/
def skipWs (cs : List Char) : List Char :=
  cs.dropWhile isWsChar

mutual

/-- Recursive-descent JSON value parser (fuel-based). -/
def parseValue : Nat → List Char → Option (Json × List Char)
  | 0, _ => none
  | fuel + 1, cs =>
    match skipWs cs with
    | '"' :: rest =>
      match parseStringBody rest with
      | some (s, r) => some (.str s, r)
      | none => none
    | '{' :: rest =>
      (match skipWs rest with
       | '}' :: r => some (.obj [], r)
       | other => match parseMembers fuel other with
         | some (fs, r) => some (.obj fs, r)
         | none => none)
    | '[' :: rest =>
      (match skipWs rest with
       | ']' :: r => some (.arr [], r)
       | other => match parseElems fuel other with
         | some (xs, r) => some (.arr xs, r)
         | none => none)
    | cs' =>
      if "true".data.isPrefixOf cs' then some (.bool true, cs'.drop 4)
      else if "false".data.isPrefixOf cs' then some (.bool false, cs'.drop 5)
      else if "null".data.isPrefixOf cs' then some (.null, cs'.drop 4)
      else match parseNumberTok cs' with
        | some (n, r) => some (.num n, r)
        | none => none

/-- One or more `"key": value` members of a JSON object, ended by `}`. -/
def parseMembers : Nat → List Char → Option (List (Str × Json) × List Char)
  | 0, _ => none
  | fuel + 1, cs =>
    match cs with
    | '"' :: rest =>
      match parseStringBody rest with
      | some (k, r1) =>
        (match skipWs r1 with
         | ':' :: r2 =>
           (match parseValue fuel r2 with
            | some (v, r3) =>
              (match skipWs r3 with
               | '}' :: r4 => some ([(k, v)], r4)
               | ',' :: r4 =>
                 (match parseMembers fuel (skipWs r4) with
                  | some (fs, r5) => some ((k, v) :: fs, r5)
                  | none => none)
               | _ => none)
            | none => none)
         | _ => none)
      | none => none
    | _ => none

/-- One or more array elements, ended by `]`. -/
def parseElems : Nat → List Char → Option (List Json × List Char)
  | 0, _ => none
  | fuel + 1, cs =>
    match parseValue fuel cs with
    | some (v, r1) =>
      (match skipWs r1 with
       | ']' :: r2 => some ([v], r2)
       | ',' :: r2 =>
         (match parseElems fuel (skipWs r2) with
          | some (xs, r3) => some (v :: xs, r3)
          | none => none)
       | _ => none)
    | none => none

end

/-- Model of `JSON.parse`: succeeds when the whole input (up to
surrounding whitespace) is one well-formed JSON value. -/
def jsonParse (cs : Str) : Option Json :=
  match parseValue (3 * cs.length + 3) cs with
  | some (v, rest) => if (skipWs rest).isEmpty then some v else none
  | none => none

end RentRelief


namespace RentRelief

/-- `GeminiError` from `geminiService.ts`: an `Error` carrying a
machine-readable `code`. -/
structure GeminiError where
  message : Str
  code : Str
deriving DecidableEq

/-- An exception escaping the parsing/conversion pipeline: either a
thrown `GeminiError`, or a JavaScript `TypeError` raised by a property
access on `null` (possible while converting flagged clauses, whose
elements are never validated). -/
inductive JsErr where
  | gem (e : GeminiError) : JsErr
  | typeError : JsErr
deriving DecidableEq

/-- The `PARSE_ERROR` value thrown by `parseGeminiResponse`. -/
def geminiParseError : GeminiError :=
  { message := "Failed to parse Gemini response as JSON".data, code := "PARSE_ERROR".data }

/-- The `VALIDATION_ERROR` value thrown by `parseGeminiResponse`. -/
def geminiValidationError : GeminiError :=
  { message := "Invalid response structure from Gemini".data, code := "VALIDATION_ERROR".data }

/-- The `NO_API_KEY` value thrown by `analyzeContractWithGemini`. -/
def geminiNoApiKey : GeminiError :=
  { message := "Gemini API key not configured".data, code := "NO_API_KEY".data }

/-- The `INVALID_INPUT` value thrown by `analyzeContractWithGemini`. -/
def geminiInvalidInput : GeminiError :=
  { message := "Contract text too short for analysis".data, code := "INVALID_INPUT".data }

/-- The `EMPTY_RESPONSE` value thrown inside the retry loop. -/
def geminiEmptyResponse : GeminiError :=
  { message := "Empty response from Gemini".data, code := "EMPTY_RESPONSE".data }

/-- The `MAX_RETRIES` value after the loop (unreachable for a positive
retry budget). -/
def geminiMaxRetries : GeminiError :=
  { message := "Max retries exceeded".data, code := "MAX_RETRIES".data }

/-- Message of the `TypeError` thrown by a property access on `null`,
as wrapped into an `UNKNOWN_ERROR` by the retry loop. -/
def typeErrorMessage : Str :=
  "Cannot read properties of null".data

/-- `ClausePattern` as synthesized by the AI path (`gemini-<i>` identity;
every other field is copied verbatim from the untrusted flagged-clause
object, hence an optional JSON value — `none` models `undefined`).
The type itself is declared in `contractAnalyzer.ts`/`bcRentalClauses.ts`
(not in `src/`); its shape is taken from the object literal built in
`parseGeminiResponse`. -/
structure ClausePattern where
  id : Str
  category : Option Json
  name : Option Json
  description : Option Json
  keywords : List Str
  isMalicious : Option Json
  severity : Option Json
  legalReference : Option Json
  explanation : Option Json

/-- `FlaggedClause` as built by the AI path. -/
structure FlaggedClause where
  clause : ClausePattern
  matchedText : Option Json
  position : Int
  aiInsight : Option Json

/-- `KeyDetail`: a labelled fact extracted from the contract. -/
structure KeyDetail where
  label : Str
  value : Json
  category : Str

/-- Canonical `AnalysisResult` as constructed by `parseGeminiResponse`
(the type is declared in `contractAnalyzer.ts`, not in `src/`; the
fields here are exactly those of the object literal returned at the end
of `parseGeminiResponse`).  `summary`, `overallRiskScore` and
`recommendations` are copied verbatim from the validated JSON value. -/
structure AnalysisResult where
  summary : Json
  keyDetails : List KeyDetail
  flaggedClauses : List FlaggedClause
  overallRiskScore : Json
  recommendations : Json
  analysisMethod : Str
  confidence : Int

/-- The accepted risk levels of `validateAnalysisResult`. -/
def validRiskLevels : List Str :=
  ["low".data, "moderate".data, "high".data, "critical".data]

/-- `!data.X || typeof data.X !== 'object'` (negated): the field is a
truthy value of JavaScript type `object`. -/
def checkTruthyObject (o : Option Json) : Bool :=
  match o with
  | some v => jsTruthy v && typeofIsObject v
  | none => false

/-- `Array.isArray(data.X)`. -/
def checkArray (o : Option Json) : Bool :=
  match o with
  | some (.arr _) => true
  | _ => false

/-- `typeof data.X === 'number'`. -/
def checkNumber (o : Option Json) : Bool :=
  match o with
  | some (.num _) => true
  | _ => false

/-- `!data.X || typeof data.X !== 'string'` (negated): a truthy, hence
non-empty, string. -/
def checkTruthyString (o : Option Json) : Bool :=
  match o with
  | some (.str s) => !s.isEmpty
  | _ => false

/-- `data.overallRiskScore < 0 || data.overallRiskScore > 100`
(negated); in the source this check runs after the field is known to be
a number, so the non-number branch is vacuous. -/
def checkScoreRange (o : Option Json) : Bool :=
  match o with
  | some (.num n) => !(n < 0 || n > 100)
  | _ => true

/-- `validRiskLevels.includes(data.riskLevel)`; in the source this check
runs after the field is known to be a string. -/
def checkRiskLevelEnum (o : Option Json) : Bool :=
  match o with
  | some (.str s) => validRiskLevels.contains s
  | _ => true

/-- `validateAnalysisResult` from `geminiService.ts`, line for line:
each `if (...) return false` becomes one conjunct, in source order.
Note that the required-field checks use JavaScript truthiness
(`!data.summary`), so a present but falsy field fails validation. -/
def validateAnalysisResult (data : Json) : Bool :=
  (jsTruthy data && typeofIsObject data) &&
  checkTruthyObject (getField data "keyDetails".data) &&
  checkArray (getField data "flaggedClauses".data) &&
  checkNumber (getField data "overallRiskScore".data) &&
  checkTruthyString (getField data "riskLevel".data) &&
  checkTruthyString (getField data "summary".data) &&
  checkArray (getField data "recommendations".data) &&
  checkScoreRange (getField data "overallRiskScore".data) &&
  checkRiskLevelEnum (getField data "riskLevel".data)

/-- The `` ```json `` marker. -/
def fenceJsonMark : Str :=
  [backtickCh, backtickCh, backtickCh, 'j', 's', 'o', 'n']

/-- The bare `` ``` `` marker. -/
def fenceMark : Str :=
  [backtickCh, backtickCh, backtickCh]

/-- `s.replace(/\s*` ``` `$/, '')`: if the string ends with a code
fence, remove it together with the maximal whitespace run before it. -/
def stripTrailingFence (s : Str) : Str :=
  if fenceMark.isSuffixOf s then
    List.rdropWhile isWsChar (s.take (s.length - 3))
  else s

/-- The code-fence stripping at the top of `parseGeminiResponse`:
trim, then remove a leading `` ```json `` or `` ``` `` marker (with the
following whitespace) and a trailing `` ``` `` marker (with the
whitespace before it). -/
def stripFences (s : Str) : Str :=
  let c := strTrim s
  if fenceJsonMark.isPrefixOf c then
    stripTrailingFence (List.dropWhile isWsChar (c.drop 7))
  else if fenceMark.isPrefixOf c then
    stripTrailingFence (List.dropWhile isWsChar (c.drop 3))
  else c

/-- The eight `if (detailsMap.X) keyDetails.push(...)` statements of
`parseGeminiResponse`, in source order.  A field becomes an entry
exactly when it is truthy; `tenantName` is never read. -/
def convertKeyDetails (dm : Json) : List KeyDetail :=
  (match getField dm "propertyAddress".data with
   | some v => if jsTruthy v then [⟨"Property Address".data, v, "other".data⟩] else []
   | none => []) ++
  (match getField dm "landlordName".data with
   | some v => if jsTruthy v then [⟨"Landlord Name".data, v, "other".data⟩] else []
   | none => []) ++
  (match getField dm "monthlyRent".data with
   | some v => if jsTruthy v then [⟨"Monthly Rent".data, v, "rent".data⟩] else []
   | none => []) ++
  (match getField dm "securityDeposit".data with
   | some v => if jsTruthy v then [⟨"Security Deposit".data, v, "security_deposit".data⟩] else []
   | none => []) ++
  (match getField dm "petDeposit".data with
   | some v => if jsTruthy v then [⟨"Pet Deposit".data, v, "security_deposit".data⟩] else []
   | none => []) ++
  (match getField dm "leaseStartDate".data with
   | some v => if jsTruthy v then [⟨"Lease Start Date".data, v, "termination".data⟩] else []
   | none => []) ++
  (match getField dm "leaseEndDate".data with
   | some v => if jsTruthy v then [⟨"Lease End Date".data, v, "termination".data⟩] else []
   | none => []) ++
  (match getField dm "noticePeriod".data with
   | some v => if jsTruthy v then [⟨"Notice Period".data, v, "termination".data⟩] else []
   | none => [])

/-- Conversion of one flagged-clause array element (arbitrary JSON,
since `validateAnalysisResult` never inspects the elements).  Property
access on a `null` element throws a `TypeError`. -/
def convertClause (i : Nat) (c : Json) : Except JsErr FlaggedClause :=
  if isNullJson c then .error .typeError
  else .ok
    { clause :=
        { id := "gemini-".data ++ (Nat.repr i).data
          category := getField c "category".data
          name := getField c "violation".data
          description := getField c "explanation".data
          keywords := []
          isMalicious := getField c "isMalicious".data
          severity := getField c "severity".data
          legalReference := getField c "legalReference".data
          explanation := getField c "explanation".data }
      matchedText := getField c "clauseText".data
      position := 0
      aiInsight := getField c "recommendation".data }

/-- `data.flaggedClauses.map((clause, index) => ...)`, which evaluates
elements left to right and propagates the first thrown `TypeError`. -/
def convertClauses (i : Nat) : List Json → Except JsErr (List FlaggedClause)
  | [] => .ok []
  | c :: rest =>
    match convertClause i c with
    | .error e => .error e
    | .ok f =>
      match convertClauses (i + 1) rest with
      | .error e => .error e
      | .ok fs => .ok (f :: fs)

/-- The flagged-clauses array of a validated response (validation
guarantees the field is an array, so the default is unreachable). -/
def flaggedElemsOf (data : Json) : List Json :=
  match getField data "flaggedClauses".data with
  | some (.arr xs) => xs
  | _ => []

/-- The conversion half of `parseGeminiResponse` (after validation):
build `keyDetails`, map the flagged clauses, and assemble the result
literal with `analysisMethod: 'gemini'` and `confidence: 95`. -/
def convertResponse (data : Json) : Except JsErr AnalysisResult :=
  let dm := (getField data "keyDetails".data).getD (.obj [])
  match convertClauses 0 (flaggedElemsOf data) with
  | .error e => .error e
  | .ok flagged => .ok
    { summary := (getField data "summary".data).getD .null
      keyDetails := convertKeyDetails dm
      flaggedClauses := flagged
      overallRiskScore := (getField data "overallRiskScore".data).getD .null
      recommendations := (getField data "recommendations".data).getD .null
      analysisMethod := "gemini".data
      confidence := 95 }

/-- `parseGeminiResponse` after the code-fence stripping: parse
(`PARSE_ERROR` on failure), validate (`VALIDATION_ERROR` on failure),
then convert. -/
def parseCleaned (cleaned : Str) : Except JsErr AnalysisResult :=
  match jsonParse cleaned with
  | none => .error (.gem geminiParseError)
  | some data =>
    if validateAnalysisResult data then convertResponse data
    else .error (.gem geminiValidationError)

/-- `parseGeminiResponse` from `geminiService.ts`. -/
def parseGeminiResponse (response : Str) : Except JsErr AnalysisResult :=
  parseCleaned (stripFences response)

end RentRelief

namespace RentRelief

/-- Modelled from the spec: the RiskScorer of §4.3 lives in
`contractAnalyzer.ts`, which is not among the provided sources.  Points
per malicious flagged clause: severity high = 30, medium = 15, low = 5;
the total is capped at 100; informational (non-malicious) clauses never
contribute. -/
def severityPoints (sev : Option Json) : Int :=
  match sev with
  | some (.str s) =>
    if s = "high".data then 30
    else if s = "medium".data then 15
    else if s = "low".data then 5
    else 0
  | _ => 0

/-- Modelled from the spec: `overallRiskScore = min(100, sum(points))`
over the malicious flagged clauses only (§4.3, §3 invariants). -/
def calculateRiskScore (clauses : List FlaggedClause) : Int :=
  min 100 ((clauses.filter
    (fun f => (f.clause.isMalicious.map jsTruthy).getD false)).foldl
      (fun acc f => acc + severityPoints f.clause.severity) 0)

/-- The badge returned by `getRiskLevel` in `AnalysisResults.tsx`. -/
structure RiskBadge where
  label : Str
  color : Str
  bg : Str

/-- `getRiskLevel` from `AnalysisResults.tsx`: the discrete risk level
attached to a numeric score. -/
def getRiskLevel (score : Int) : RiskBadge :=
  if score = 0 then ⟨"Low Risk".data, "text-green-600".data, "bg-green-100".data⟩
  else if score < 30 then ⟨"Moderate Risk".data, "text-yellow-600".data, "bg-yellow-100".data⟩
  else if score < 60 then ⟨"High Risk".data, "text-orange-600".data, "bg-orange-100".data⟩
  else ⟨"Critical Risk".data, "text-red-600".data, "bg-red-100".data⟩

/-- One attempt's transport outcome: the external `generateContent`
call either throws (network/rate-limit error, never a `GeminiError`) or
returns a text payload. -/
inductive CallOutcome where
  | netError (msg : Str) : CallOutcome
  | response (text : Str) : CallOutcome

/-- The body of one `try` block of the retry loop: empty text throws
`EMPTY_RESPONSE`, otherwise the response is parsed. -/
def attemptStep (text : Str) : Except JsErr AnalysisResult :=
  if text.isEmpty then .error (.gem geminiEmptyResponse) else parseGeminiResponse text

/-- The `for (let attempt = 0; attempt < maxRetries; attempt++)` loop of
`analyzeContractWithGemini`, driven by the per-attempt outcomes.
Returns the result (or thrown error) together with the list of backoff
sleeps performed, in milliseconds.  A thrown `GeminiError` on a
non-final attempt sleeps `2^attempt * 1000` ms and retries; on the final
attempt it is rethrown; every non-`GeminiError` (network failure or
`TypeError`) is wrapped as `UNKNOWN_ERROR` and thrown at once. -/
def geminiLoop (outcomes : List CallOutcome) :
    Nat → Nat → Except GeminiError AnalysisResult × List Nat
  | _, 0 => (.error geminiMaxRetries, [])
  | attempt, remaining + 1 =>
    match outcomes.getD attempt (.netError "fetch failed".data) with
    | .netError msg => (.error { message := msg, code := "UNKNOWN_ERROR".data }, [])
    | .response text =>
      match attemptStep text with
      | .ok r => (.ok r, [])
      | .error .typeError =>
        (.error { message := typeErrorMessage, code := "UNKNOWN_ERROR".data }, [])
      | .error (.gem e) =>
        match remaining with
        | 0 => (.error e, [])
        | r + 1 =>
          let next := geminiLoop outcomes (attempt + 1) (r + 1)
          (next.1, 2 ^ attempt * 1000 :: next.2)

/-- Truthiness of the configured credential (`import.meta.env` yields a
string or `undefined`; both `undefined` and the empty string are falsy). -/
def jsTruthyKey : Option Str → Bool
  | none => false
  | some s => !s.isEmpty

/-- `analyzeContractWithGemini` from `geminiService.ts`: the credential
and minimum-length gates, then the retry loop.  `outcomes` supplies the
transport behaviour of each attempt. -/
def analyzeContractWithGemini (apiKey : Option Str) (contractText : Str)
    (maxRetries : Nat) (outcomes : List CallOutcome) :
    Except GeminiError AnalysisResult × List Nat :=
  if !jsTruthyKey apiKey then (.error geminiNoApiKey, [])
  else if contractText.isEmpty || (strTrim contractText).length < 100 then
    (.error geminiInvalidInput, [])
  else geminiLoop outcomes 0 maxRetries

end RentRelief

namespace RentRelief

/-- The `BC_RTA_KNOWLEDGE` regulation knowledge-base constant. -/
def bcRtaKnowledge : Str :=
  ("\nBC RESIDENTIAL TENANCY ACT KEY REGULATIONS:\n\nSECURITY DEPOSITS (Section 19):\n- Maximum: 0.5 months rent (half month\x27s rent) - THIS IS LEGAL AND COMPLIANT\n- ONLY flag as excessive if deposit is MORE THAN 0.5 months rent\n- Examples:\n  * $2,000 rent with $1,000 deposit = COMPLIANT (exactly 0.5)\n  * $2,000 rent with $1,500 deposit = VIOLATION (0.75 months)\n  * $2,100 rent with $1,050 deposit = COMPLIANT (exactly 0.5)\n- Must be refundable\n- Requires move-in and move-out condition inspection reports\n- Cannot be labeled as \"non-refundable\"\n\nPET DEPOSITS (Section 19):\n- Maximum: 0.5 months rent (separate from security deposit) - THIS IS LEGAL\n- ONLY flag as excessive if pet deposit is MORE THAN 0.5 months rent\n- Must be refundable\n- Only allowed if pets are permitted\n\nRENT INCREASES (Section 42-43):\n- Frequency: Once per 12 months maximum\n- Notice: 3 months written notice required\n- Amount: Limited to government-set percentage (typically 2-3% annually)\n- Cannot be retroactive\n- Requires proper RTB form\n\nTERMINATION & EVICTION (Section 45-55):\n- Landlord must follow proper legal process\n- Cannot evict without proper notice and reason\n- Tenant entitled to dispute resolution\n- Immediate eviction clauses are illegal\n- Fixed-term vacate clauses generally unenforceable (since 2017)\n\nNOTICE PERIODS (Section 45):\n- Month-to-month: 1 month notice from tenant\n- Landlord ending tenancy: 2-4 months depending on reason\n- Tenants cannot waive notice rights\n\nMAINTENANCE & REPAIRS (Section 32):\n- Landlord responsible for maintaining rental unit\n- Landlord must keep unit in reasonable condition\n- Major repairs are landlord\x27s responsibility\n- Tenant cannot be forced to pay for structural repairs\n\nPRIVACY & ENTRY (Section 29):\n- Landlord must give 24 hours written notice before entry\n- Entry only allowed 8am-9pm unless emergency\n- Must specify reason for entry\n- Unlimited access clauses are illegal\n\nTENANT RIGHTS (Section 5):\n- Rights under RTA cannot be waived\n- Any clause attempting to waive RTA rights is void\n- Tenants have right to quiet enjoyment\n- Reasonable guest policies only\n\nPOST-DATED CHEQUES (Section 22):\n- Landlords cannot require post-dated cheques\n- Cannot require automatic payment authorization\n- Tenant chooses payment method\n\nUTILITIES:\n- Must be clearly specified who pays what\n- Cannot change utility responsibility without agreement\n- Landlord cannot charge more than actual cost\n\nSUBLETTING (Section 34):\n- Landlord cannot unreasonably refuse subletting\n- Important for students during summer breaks\n- Tenant must get landlord approval\n").data

/-- The fixed text of `buildAnalysisPrompt` before the knowledge base. -/
def promptPartOne : Str :=
  ("You are an expert legal analyst specializing in BC (British Columbia) Residential Tenancy Act compliance. Your task is to analyze rental contracts and identify problematic clauses that violate BC tenancy laws.\n\n").data

/-- The fixed text between the knowledge base and the contract text
(task instructions and the output-schema description). -/
def promptPartTwo : Str :=
  ("\n\nTASK:\nAnalyze the following rental contract and provide a comprehensive assessment. Extract key details, identify problematic clauses, and calculate an overall risk score.\n\nIMPORTANT INSTRUCTIONS:\n1. Be thorough but concise in your analysis\n2. ONLY flag clauses that VIOLATE BC law - do NOT flag compliant clauses\n3. Security deposits at exactly 0.5 months rent are LEGAL and should NOT be flagged\n4. Pet deposits at exactly 0.5 months rent are LEGAL and should NOT be flagged\n5. Only flag deposits if they EXCEED 0.5 months rent (e.g., 0.75 months, 1 month, etc.)\n6. Provide specific legal references from BC RTA\n7. Calculate risk score based on severity: High=30 points, Medium=15 points, Low=5 points (max 100)\n8. Provide actionable recommendations for the tenant\n9. Extract exact text snippets for flagged clauses (keep under 200 characters)\n10. If a contract is compliant, the flaggedClauses array should be EMPTY or contain only informational items\n\nOUTPUT FORMAT:\nRespond ONLY with valid JSON matching this exact structure (no markdown, no code blocks, just raw JSON):\n\n\x7b\n  \"keyDetails\": \x7b\n    \"monthlyRent\": \"extracted value or null\",\n    \"securityDeposit\": \"extracted value or null\",\n    \"petDeposit\": \"extracted value or null\",\n    \"leaseStartDate\": \"extracted value or null\",\n    \"leaseEndDate\": \"extracted value or null\",\n    \"propertyAddress\": \"extracted value or null\",\n    \"landlordName\": \"extracted value or null\",\n    \"tenantName\": \"extracted value or null\",\n    \"noticePeriod\": \"extracted value or null\"\n  \x7d,\n  \"flaggedClauses\": [\n    \x7b\n      \"clauseText\": \"exact text from contract (max 200 chars)\",\n      \"category\": \"security_deposit|rent|termination|maintenance|privacy|pets|subletting|utilities|other\",\n      \"severity\": \"low|medium|high\",\n      \"isMalicious\": true or false,\n      \"violation\": \"brief description of what law is violated\",\n      \"legalReference\": \"BC RTA Section X\",\n      \"explanation\": \"why this is concerning for the tenant\",\n      \"recommendation\": \"what the tenant should do about this\"\n    \x7d\n  ],\n  \"overallRiskScore\": 0-100,\n  \"riskLevel\": \"low|moderate|high|critical\",\n  \"summary\": \"2-3 sentence overview of the contract\",\n  \"recommendations\": [\"recommendation 1\", \"recommendation 2\", \"...\"]\n\x7d\n\nRISK LEVEL GUIDELINES:\n- low: 0 score, no violations found\n- moderate: 1-29 score, minor concerns\n- high: 30-59 score, significant violations\n- critical: 60+ score, serious illegal clauses\n\nCONTRACT TEXT TO ANALYZE:\n").data

/-- The fixed text after the contract text. -/
def promptPartThree : Str :=
  ("\n\nRemember: Respond with ONLY the JSON object, no additional text or formatting.").data

/-- `buildAnalysisPrompt` from `geminiService.ts`: knowledge base plus
fixed instructions plus the contract text truncated to its first 50,000
characters (`contractText.slice(0, 50000)`). -/
def buildAnalysisPrompt (contractText : Str) : Str :=
  promptPartOne ++ bcRtaKnowledge ++ promptPartTwo ++
    contractText.take 50000 ++ promptPartThree

end RentRelief

namespace RentRelief

/-- A JSON object node (JavaScript non-null, non-array `object`). -/
def isObjNode : Json → Bool
  | .obj _ => true
  | _ => false

/-- Following the spec's words (§4.5/§9): a response that is
*structurally complete with the right types* — every required top-level
field of the declared interface is present with its declared JavaScript
type (`keyDetails` an object, `flaggedClauses` an array,
`overallRiskScore` a number, `riskLevel` and `summary` strings,
`recommendations` an array).  Used to compare the claimed validation
conditions with the implemented ones. -/
def structurallyComplete (v : Json) : Bool :=
  isObjNode v &&
  (match getField v "keyDetails".data with
   | some (.obj _) => true
   | _ => false) &&
  (match getField v "flaggedClauses".data with
   | some (.arr _) => true
   | _ => false) &&
  (match getField v "overallRiskScore".data with
   | some (.num _) => true
   | _ => false) &&
  (match getField v "riskLevel".data with
   | some (.str _) => true
   | _ => false) &&
  (match getField v "summary".data with
   | some (.str _) => true
   | _ => false) &&
  (match getField v "recommendations".data with
   | some (.arr _) => true
   | _ => false)

/-- Following the claim's words: the validation condition as stated —
required top-level fields present with the right types, plus
`overallRiskScore ∈ [0,100]` and `riskLevel` in the enumeration.
(The implemented validator additionally requires `summary`, `riskLevel`
and `keyDetails` to be truthy.) -/
def claimedValidShape (v : Json) : Bool :=
  structurallyComplete v &&
  (match getField v "overallRiskScore".data with
   | some (.num n) => !(n < 0 || n > 100)
   | _ => false) &&
  (match getField v "riskLevel".data with
   | some (.str s) => validRiskLevels.contains s
   | _ => false)

/-- A payload wrapped in `` ```json `` / `` ``` `` fence markers, the
typical shape of a fenced model reply. -/
def wrapJsonFence (p : Str) : Str :=
  fenceJsonMark ++ '\n' :: (p ++ '\n' :: fenceMark)

/-- A payload wrapped in bare `` ``` `` fence markers. -/
def wrapPlainFence (p : Str) : Str :=
  fenceMark ++ '\n' :: (p ++ '\n' :: fenceMark)

/-- The label/source-field/category table behind the eight
`keyDetails.push` statements, in source order (`tenantName` has no row:
the code never maps it). -/
def keyDetailTable : List (Str × Str × Str) :=
  [("Property Address".data, "propertyAddress".data, "other".data),
   ("Landlord Name".data, "landlordName".data, "other".data),
   ("Monthly Rent".data, "monthlyRent".data, "rent".data),
   ("Security Deposit".data, "securityDeposit".data, "security_deposit".data),
   ("Pet Deposit".data, "petDeposit".data, "security_deposit".data),
   ("Lease Start Date".data, "leaseStartDate".data, "termination".data),
   ("Lease End Date".data, "leaseEndDate".data, "termination".data),
   ("Notice Period".data, "noticePeriod".data, "termination".data)]

/-- One table row applied to the declared key-details object: a truthy
source field becomes exactly one entry, any other field none. -/
def tableEntry (dm : Json) (t : Str × Str × Str) : Option KeyDetail :=
  match getField dm t.2.1 with
  | some v => if jsTruthy v then some ⟨t.1, v, t.2.2⟩ else none
  | none => none

/-- The successful result of a pipeline run, if any. -/
def resultOf (e : Except JsErr AnalysisResult) : Option AnalysisResult :=
  e.toOption

/-- `analysisMethod` of a successful pipeline run. -/
def methodOf (e : Except JsErr AnalysisResult) : Option Str :=
  (resultOf e).map (·.analysisMethod)

/-- `confidence` of a successful pipeline run. -/
def confidenceOf (e : Except JsErr AnalysisResult) : Option Int :=
  (resultOf e).map (·.confidence)

/-- `overallRiskScore` of a successful pipeline run. -/
def scoreJsonOf (e : Except JsErr AnalysisResult) : Option Json :=
  (resultOf e).map (·.overallRiskScore)

/-- The §4.3 score recomputed from the flagged clauses of a successful
pipeline run. -/
def recomputedOf (e : Except JsErr AnalysisResult) : Option Int :=
  (resultOf e).map (fun r => calculateRiskScore r.flaggedClauses)

/-- The `KeyDetail` labels of a successful pipeline run. -/
def labelsOf (e : Except JsErr AnalysisResult) : Option (List Str) :=
  (resultOf e).map (fun r => r.keyDetails.map (·.label))

/-- A named field of the declared `keyDetails` object of a response. -/
def keyDetailsFieldOf (s : Str) (k : Str) : Option Json :=
  match jsonParse (stripFences s) with
  | some v =>
    match getField v "keyDetails".data with
    | some dm => getField dm k
    | none => none
  | none => none

/-- C1 counterexample input: one malicious high-severity flagged clause
(recomputed score 30) but a declared `overallRiskScore` of 80. -/
def c1cex : Str :=
  ("\x7b\"keyDetails\":\x7b\x7d,\"flaggedClauses\":[\x7b\"clauseText\":\"no refunds\",\"category\":\"security_deposit\",\"severity\":\"high\",\"isMalicious\":true,\"violation\":\"Section 19\",\"legalReference\":\"BC RTA Section 19\",\"explanation\":\"illegal\",\"recommendation\":\"dispute\"\x7d],\"overallRiskScore\":80,\"riskLevel\":\"critical\",\"summary\":\"bad contract\",\"recommendations\":[\"seek advice\"]\x7d").data

/-- C2 counterexample contract text: 120 characters, passing the
minimum-length gate. -/
def c2text : Str :=
  List.replicate 120 'a'

/-- C3 counterexample input: every required field present with its
declared type, `overallRiskScore` in range, `riskLevel` in the
enumeration — but `summary` is the empty string. -/
def c3cex : Str :=
  ("\x7b\"keyDetails\":\x7b\x7d,\"flaggedClauses\":[],\"overallRiskScore\":0,\"riskLevel\":\"low\",\"summary\":\"\",\"recommendations\":[]\x7d").data

/-- C3 counterexample input for the success clause: passes parsing and
validation, but `flaggedClauses` contains `null`, so the conversion
throws a `TypeError`. -/
def c3cexNull : Str :=
  ("\x7b\"keyDetails\":\x7b\x7d,\"flaggedClauses\":[null],\"overallRiskScore\":0,\"riskLevel\":\"low\",\"summary\":\"ok\",\"recommendations\":[]\x7d").data

/-- C4 counterexample payload: a payload that itself begins with a code
fence. -/
def c4payload : Str :=
  ("```\x7b\x7d```").data

/-- C5 counterexample input: a minimal valid response. -/
def c5cex : Str :=
  ("\x7b\"keyDetails\":\x7b\x7d,\"flaggedClauses\":[],\"overallRiskScore\":0,\"riskLevel\":\"low\",\"summary\":\"fine\",\"recommendations\":[]\x7d").data

/-- C8 counterexample input: `tenantName` is declared (non-null) and
`securityDeposit` is declared as the empty string (non-null); only
`monthlyRent` is truthy. -/
def c8cex : Str :=
  ("\x7b\"keyDetails\":\x7b\"monthlyRent\":\"$2000\",\"securityDeposit\":\"\",\"tenantName\":\"Bob\"\x7d,\"flaggedClauses\":[],\"overallRiskScore\":0,\"riskLevel\":\"low\",\"summary\":\"ok\",\"recommendations\":[]\x7d").data

/-- C10 input (a): structurally complete, `summary` empty. -/
def c10cexSummary : Str :=
  ("\x7b\"keyDetails\":\x7b\x7d,\"flaggedClauses\":[],\"overallRiskScore\":5,\"riskLevel\":\"moderate\",\"summary\":\"\",\"recommendations\":[]\x7d").data

/-- C10 input (b): structurally complete, `riskLevel` empty. -/
def c10cexRiskLevel : Str :=
  ("\x7b\"keyDetails\":\x7b\x7d,\"flaggedClauses\":[],\"overallRiskScore\":5,\"riskLevel\":\"\",\"summary\":\"ok\",\"recommendations\":[]\x7d").data

end RentRelief

-- TEMP tests
namespace RentRelief
example : parseGeminiResponse c3cex = .error (.gem geminiValidationError) := rfl
example : (jsonParse (stripFences c3cex)).map claimedValidShape = some true := rfl
example : parseGeminiResponse c3cexNull = .error .typeError := rfl
example : parseGeminiResponse c4payload = .error (.gem geminiValidationError) := rfl
example : parseGeminiResponse (wrapPlainFence c4payload) = .error (.gem geminiParseError) := rfl
example : scoreJsonOf (parseGeminiResponse c1cex) = some (.num 80) := rfl
example : recomputedOf (parseGeminiResponse c1cex) = some 30 := rfl
example : methodOf (parseGeminiResponse c5cex) = some "gemini".data := rfl
example : confidenceOf (parseGeminiResponse c5cex) = some 95 := rfl
example : labelsOf (parseGeminiResponse c8cex) = some ["Monthly Rent".data] := rfl
example : keyDetailsFieldOf c8cex "tenantName".data = some (.str "Bob".data) := rfl
example : analyzeContractWithGemini (some "k".data) c2text 3 [.netError "429".data] =
    (.error { message := "429".data, code := "UNKNOWN_ERROR".data }, []) := rfl
example : (jsonParse (stripFences c10cexSummary)).map structurallyComplete = some true := rfl
example : parseGeminiResponse c10cexSummary = .error (.gem geminiValidationError) := rfl
example : (jsonParse (stripFences c10cexRiskLevel)).map structurallyComplete = some true := rfl
example : parseGeminiResponse c10cexRiskLevel = .error (.gem geminiValidationError) := rfl
end RentRelief

namespace RentRelief

/-- The implemented validation conditions, spelled out: the payload and
its `keyDetails` are truthy objects, `flaggedClauses` and
`recommendations` are arrays, `overallRiskScore` is a number in
`[0,100]`, and `riskLevel` and `summary` are *non-empty* strings with
`riskLevel` drawn from the four-level enumeration. -/
def validConditions (v : Json) : Prop :=
  (jsTruthy v = true ∧ typeofIsObject v = true)
  ∧ (∃ kd, getField v "keyDetails".data = some kd ∧ jsTruthy kd = true ∧ typeofIsObject kd = true)
  ∧ (∃ xs, getField v "flaggedClauses".data = some (Json.arr xs))
  ∧ (∃ n, getField v "overallRiskScore".data = some (Json.num n) ∧ 0 ≤ n ∧ n ≤ 100)
  ∧ (∃ rl, getField v "riskLevel".data = some (Json.str rl) ∧ rl ≠ [] ∧
      (rl = "low".data ∨ rl = "moderate".data ∨ rl = "high".data ∨ rl = "critical".data))
  ∧ (∃ sm, getField v "summary".data = some (Json.str sm) ∧ sm ≠ [])
  ∧ (∃ rc, getField v "recommendations".data = some (Json.arr rc))

/-- The declared `keyDetails` object of a response (after parsing and
fence stripping), defaulting as in `convertResponse`. -/
def declaredKeyDetailsOf (s : Str) : Json :=
  ((jsonParse (stripFences s)).bind (fun v => getField v "keyDetails".data)).getD (.obj [])

/-- A minimal valid response, used to instantiate theorems with
hypotheses. -/
def minimalValidResponse : Str :=
  ("\x7b\"keyDetails\":\x7b\x7d,\"flaggedClauses\":[],\"overallRiskScore\":0,\"riskLevel\":\"low\",\"summary\":\"fine\",\"recommendations\":[]\x7d").data

/-- The `AnalysisResult` produced for `minimalValidResponse`. -/
def minimalValidResult : AnalysisResult :=
  { summary := .str "fine".data
    keyDetails := []
    flaggedClauses := []
    overallRiskScore := .num 0
    recommendations := .arr []
    analysisMethod := "gemini".data
    confidence := 95 }

/-- The JSON value parsed from `c3cexNull`. -/
def c3cexNullVal : Json :=
  .obj [("keyDetails".data, .obj []),
        ("flaggedClauses".data, .arr [.null]),
        ("overallRiskScore".data, .num 0),
        ("riskLevel".data, .str "low".data),
        ("summary".data, .str "ok".data),
        ("recommendations".data, .arr [])]

/-- A valid response declaring one truthy key detail, used to
instantiate the key-details mapping theorem. -/
def keyedValidResponse : Str :=
  ("\x7b\"keyDetails\":\x7b\"monthlyRent\":\"$1500\"\x7d,\"flaggedClauses\":[],\"overallRiskScore\":0,\"riskLevel\":\"low\",\"summary\":\"ok\",\"recommendations\":[]\x7d").data

/-- The `AnalysisResult` produced for `keyedValidResponse`. -/
def keyedValidResult : AnalysisResult :=
  { summary := .str "ok".data
    keyDetails := [⟨"Monthly Rent".data, .str "$1500".data, "rent".data⟩]
    flaggedClauses := []
    overallRiskScore := .num 0
    recommendations := .arr []
    analysisMethod := "gemini".data
    confidence := 95 }

end RentRelief

namespace RentRelief

theorem checkTruthyObject_iff (o : Option Json) :
    checkTruthyObject o = true ↔
      ∃ v, o = some v ∧ jsTruthy v = true ∧ typeofIsObject v = true := by
  cases o with
  | none => simp [checkTruthyObject]
  | some v => simp [checkTruthyObject, Bool.and_eq_true]

theorem checkArray_iff (o : Option Json) :
    checkArray o = true ↔ ∃ xs, o = some (Json.arr xs) := by
  cases o with
  | none => simp [checkArray]
  | some j => cases j <;> simp [checkArray]

theorem checkNumber_iff (o : Option Json) :
    checkNumber o = true ↔ ∃ n, o = some (Json.num n) := by
  cases o with
  | none => simp [checkNumber]
  | some j => cases j <;> simp [checkNumber]

theorem checkTruthyString_iff (o : Option Json) :
    checkTruthyString o = true ↔ ∃ s, o = some (Json.str s) ∧ s ≠ [] := by
  cases o with
  | none => simp [checkTruthyString]
  | some j => cases j <;> simp [checkTruthyString]

theorem checkScoreRange_num (n : Int) :
    checkScoreRange (some (Json.num n)) = true ↔ 0 ≤ n ∧ n ≤ 100 := by
  simp [checkScoreRange]

theorem checkRiskLevelEnum_str (s : Str) :
    checkRiskLevelEnum (some (Json.str s)) = true ↔
      s = "low".data ∨ s = "moderate".data ∨ s = "high".data ∨ s = "critical".data := by
  simp [checkRiskLevelEnum, validRiskLevels, List.contains_eq_any_beq, List.any_cons]

/-- The implemented validator accepts exactly the spelled-out
conditions of `validConditions`. -/
theorem validate_iff (v : Json) :
    validateAnalysisResult v = true ↔ validConditions v := by
  unfold validateAnalysisResult validConditions
  simp only [Bool.and_eq_true]
  constructor
  · rintro ⟨⟨⟨⟨⟨⟨⟨⟨hA, hK⟩, hF⟩, hN⟩, hRL⟩, hSM⟩, hRC⟩, hSR⟩, hRE⟩
    obtain ⟨kd, hkd, hkt, hko⟩ := (checkTruthyObject_iff _).mp hK
    obtain ⟨xs, hxs⟩ := (checkArray_iff _).mp hF
    obtain ⟨n, hn⟩ := (checkNumber_iff _).mp hN
    obtain ⟨rl, hrl, hrlne⟩ := (checkTruthyString_iff _).mp hRL
    obtain ⟨sm, hsm, hsmne⟩ := (checkTruthyString_iff _).mp hSM
    obtain ⟨rc, hrc⟩ := (checkArray_iff _).mp hRC
    rw [hn] at hSR
    rw [hrl] at hRE
    exact ⟨hA, ⟨kd, hkd, hkt, hko⟩, ⟨xs, hxs⟩,
      ⟨n, hn, (checkScoreRange_num n).mp hSR⟩,
      ⟨rl, hrl, hrlne, (checkRiskLevelEnum_str rl).mp hRE⟩,
      ⟨sm, hsm, hsmne⟩, ⟨rc, hrc⟩⟩
  · rintro ⟨hA, ⟨kd, hkd, hkt, hko⟩, ⟨xs, hxs⟩, ⟨n, hn, hnr⟩,
      ⟨rl, hrl, hrlne, hrle⟩, ⟨sm, hsm, hsmne⟩, ⟨rc, hrc⟩⟩
    refine ⟨⟨⟨⟨⟨⟨⟨⟨hA, ?_⟩, ?_⟩, ?_⟩, ?_⟩, ?_⟩, ?_⟩, ?_⟩, ?_⟩
    · exact (checkTruthyObject_iff _).mpr ⟨kd, hkd, hkt, hko⟩
    · exact (checkArray_iff _).mpr ⟨xs, hxs⟩
    · exact (checkNumber_iff _).mpr ⟨n, hn⟩
    · exact (checkTruthyString_iff _).mpr ⟨rl, hrl, hrlne⟩
    · exact (checkTruthyString_iff _).mpr ⟨sm, hsm, hsmne⟩
    · exact (checkArray_iff _).mpr ⟨rc, hrc⟩
    · rw [hn]
      exact (checkScoreRange_num n).mpr hnr
    · rw [hrl]
      exact (checkRiskLevelEnum_str rl).mpr hrle

end RentRelief

namespace RentRelief

theorem convertClause_ok_of_not_null (i : Nat) (c : Json) (h : isNullJson c = false) :
    ∃ f, convertClause i c = .ok f := by
  unfold convertClause
  rw [h]
  exact ⟨_, rfl⟩

theorem convertClauses_ok_of_all (xs : List Json) (i : Nat)
    (h : xs.all (fun c => !isNullJson c) = true) :
    ∃ fs, convertClauses i xs = .ok fs := by
  induction xs generalizing i with
  | nil => exact ⟨[], rfl⟩
  | cons c rest ih =>
    simp only [List.all_cons, Bool.and_eq_true, Bool.not_eq_true'] at h
    obtain ⟨f, hf⟩ := convertClause_ok_of_not_null i c h.1
    obtain ⟨fs, hfs⟩ := ih (i + 1) h.2
    exact ⟨f :: fs, by simp [convertClauses, hf, hfs]⟩

theorem convertClauses_typeError_of_null (xs : List Json) (i : Nat)
    (h : xs.all (fun c => !isNullJson c) = false) :
    convertClauses i xs = .error .typeError := by
  induction xs generalizing i with
  | nil => simp at h
  | cons c rest ih =>
    by_cases hc : isNullJson c = true
    · simp [convertClauses, convertClause, hc]
    · have hc' : isNullJson c = false := by simpa using hc
      have h' : rest.all (fun c => !isNullJson c) = false := by
        simpa [List.all_cons, hc'] using h
      obtain ⟨f, hf⟩ := convertClause_ok_of_not_null i c hc'
      simp [convertClauses, hf, ih (i + 1) h']

theorem convertClauses_error_typeError (xs : List Json) (i : Nat) (e : JsErr)
    (h : convertClauses i xs = .error e) : e = .typeError := by
  by_cases hall : xs.all (fun c => !isNullJson c) = true
  · obtain ⟨fs, hfs⟩ := convertClauses_ok_of_all xs i hall
    rw [hfs] at h
    exact absurd h (by simp)
  · have := convertClauses_typeError_of_null xs i (by simpa using hall)
    rw [this] at h
    injection h with h'
    exact h'.symm

theorem convertResponse_not_gem (v : Json) (e : GeminiError) :
    convertResponse v ≠ .error (.gem e) := by
  unfold convertResponse
  cases hc : convertClauses 0 (flaggedElemsOf v) with
  | error e' =>
    have := convertClauses_error_typeError _ _ _ hc
    subst this
    simp
  | ok fs => simp

theorem parseOk_inv (s : Str) (r : AnalysisResult) (h : parseGeminiResponse s = .ok r) :
    ∃ v, jsonParse (stripFences s) = some v ∧ validateAnalysisResult v = true ∧
      convertResponse v = .ok r := by
  unfold parseGeminiResponse parseCleaned at h
  cases hv : jsonParse (stripFences s) with
  | none =>
    rw [hv] at h
    exact absurd h (by simp)
  | some v =>
    rw [hv] at h
    have h' : (if validateAnalysisResult v = true then convertResponse v
        else Except.error (JsErr.gem geminiValidationError)) = Except.ok r := h
    by_cases hval : validateAnalysisResult v = true
    · rw [if_pos hval] at h'
      exact ⟨v, rfl, hval, h'⟩
    · rw [if_neg hval] at h'
      exact absurd h' (by simp)

theorem convertOk_proj (v : Json) (r : AnalysisResult) (h : convertResponse v = .ok r) :
    r.summary = (getField v "summary".data).getD .null ∧
    r.keyDetails = convertKeyDetails ((getField v "keyDetails".data).getD (.obj [])) ∧
    r.overallRiskScore = (getField v "overallRiskScore".data).getD .null ∧
    r.recommendations = (getField v "recommendations".data).getD .null ∧
    r.analysisMethod = "gemini".data ∧
    r.confidence = 95 := by
  unfold convertResponse at h
  cases hc : convertClauses 0 (flaggedElemsOf v) with
  | error e =>
    rw [hc] at h
    exact absurd h (by simp)
  | ok fs =>
    rw [hc] at h
    simp only [Except.ok.injEq] at h
    subst h
    exact ⟨rfl, rfl, rfl, rfl, rfl, rfl⟩

end RentRelief

namespace RentRelief

theorem convertResponse_ok_of_all (v : Json)
    (h : (flaggedElemsOf v).all (fun c => !isNullJson c) = true) :
    ∃ r, convertResponse v = .ok r := by
  obtain ⟨fs, hfs⟩ := convertClauses_ok_of_all (flaggedElemsOf v) 0 h
  refine ⟨{ summary := (getField v "summary".data).getD .null
            keyDetails := convertKeyDetails ((getField v "keyDetails".data).getD (.obj []))
            flaggedClauses := fs
            overallRiskScore := (getField v "overallRiskScore".data).getD .null
            recommendations := (getField v "recommendations".data).getD .null
            analysisMethod := "gemini".data
            confidence := 95 }, ?_⟩
  unfold convertResponse
  rw [hfs]

theorem convertResponse_typeError_of_null (v : Json)
    (h : (flaggedElemsOf v).all (fun c => !isNullJson c) = false) :
    convertResponse v = .error .typeError := by
  have hte := convertClauses_typeError_of_null (flaggedElemsOf v) 0 h
  unfold convertResponse
  rw [hte]

end RentRelief

namespace RentRelief

/-- C3 (amended): `parseGeminiResponse` fails with `PARSE_ERROR` exactly
when the fence-stripped input is not well-formed JSON; it fails with
`VALIDATION_ERROR` exactly when the parsed value violates the
implemented validation conditions — a required top-level field missing,
wrongly typed, or falsy (so an empty-string `summary` or `riskLevel` is
also rejected), `overallRiskScore` outside `[0,100]`, or `riskLevel`
outside the enumeration.  An input passing both gates yields a canonical
`AnalysisResult` when no `flaggedClauses` element is `null`; a `null`
element makes the conversion throw a `TypeError` instead. -/
theorem parse_validate_characterization (s : Str) :
    (parseGeminiResponse s = .error (.gem geminiParseError) ↔
      jsonParse (stripFences s) = none)
    ∧ (parseGeminiResponse s = .error (.gem geminiValidationError) ↔
      ∃ v, jsonParse (stripFences s) = some v ∧ ¬ validConditions v)
    ∧ (∀ v, jsonParse (stripFences s) = some v → validConditions v →
      (flaggedElemsOf v).all (fun c => !isNullJson c) = true →
      ∃ r, parseGeminiResponse s = .ok r)
    ∧ (∀ v, jsonParse (stripFences s) = some v → validConditions v →
      (flaggedElemsOf v).all (fun c => !isNullJson c) = false →
      parseGeminiResponse s = .error .typeError) := by
  cases hv : jsonParse (stripFences s) with
  | none =>
    have hps : parseGeminiResponse s = .error (.gem geminiParseError) := by
      unfold parseGeminiResponse parseCleaned
      rw [hv]
    refine ⟨?_, ?_, ?_, ?_⟩
    · rw [hps]
      simp
    · rw [hps]
      constructor
      · intro h
        have : geminiParseError = geminiValidationError := by
          injection h with h1
          injection h1
        exact absurd this (by decide)
      · rintro ⟨v, hv', _⟩
        exact absurd hv' (by simp)
    · intro v hv' _ _
      exact absurd hv' (by simp)
    · intro v hv' _ _
      exact absurd hv' (by simp)
  | some v =>
    have hps : parseGeminiResponse s =
        (if validateAnalysisResult v = true then convertResponse v
         else .error (.gem geminiValidationError)) := by
      unfold parseGeminiResponse parseCleaned
      rw [hv]
    by_cases hval : validateAnalysisResult v = true
    · rw [if_pos hval] at hps
      refine ⟨?_, ?_, ?_, ?_⟩
      · rw [hps]
        constructor
        · intro h
          exact absurd h (convertResponse_not_gem v _)
        · intro h
          exact absurd h (by simp)
      · rw [hps]
        constructor
        · intro h
          exact absurd h (convertResponse_not_gem v _)
        · rintro ⟨v', hv', hnc⟩
          injection hv' with hv''
          subst hv''
          exact absurd ((validate_iff v).mp hval) hnc
      · intro v' hv' _ hall
        injection hv' with hv''
        subst hv''
        obtain ⟨r, hr⟩ := convertResponse_ok_of_all v hall
        exact ⟨r, by rw [hps, hr]⟩
      · intro v' hv' _ hall
        injection hv' with hv''
        subst hv''
        rw [hps]
        exact convertResponse_typeError_of_null v hall
    · rw [if_neg hval] at hps
      refine ⟨?_, ?_, ?_, ?_⟩
      · rw [hps]
        constructor
        · intro h
          have : geminiValidationError = geminiParseError := by
            injection h with h1
            injection h1
          exact absurd this (by decide)
        · intro h
          exact absurd h (by simp)
      · rw [hps]
        constructor
        · intro _
          exact ⟨v, rfl, fun hc => hval ((validate_iff v).mpr hc)⟩
        · intro _
          rfl
      · intro v' hv' hc _
        injection hv' with hv''
        subst hv''
        exact absurd ((validate_iff v).mpr hc) hval
      · intro v' hv' hc _
        injection hv' with hv''
        subst hv''
        exact absurd ((validate_iff v).mpr hc) hval

end RentRelief

namespace RentRelief

/-- C3 counterexample: `c3cex` satisfies the claim's validation
conditions (every required field present with the right type, score in
range, risk level in the enumeration) yet `parseGeminiResponse` rejects
it with `VALIDATION_ERROR` (its `summary` is the empty string); and
`c3cexNull` passes both gates yet yields no canonical result — the
conversion throws a `TypeError` on its `null` flagged clause. -/
theorem validation_rejects_claimed_valid_input :
    (jsonParse (stripFences c3cex)).map claimedValidShape = some true
    ∧ parseGeminiResponse c3cex = .error (.gem geminiValidationError)
    ∧ (jsonParse (stripFences c3cexNull)).map validateAnalysisResult = some true
    ∧ parseGeminiResponse c3cexNull = .error .typeError :=
  ⟨rfl, rfl, rfl, rfl⟩

/-- C3 witness: the characterization instantiated at concrete inputs. -/
theorem parse_validate_characterization_witness :
    parseGeminiResponse ("nope".data) = .error (.gem geminiParseError)
    ∧ parseGeminiResponse c3cexNull = .error .typeError :=
  ⟨(parse_validate_characterization ("nope".data)).1.mpr rfl,
   (parse_validate_characterization c3cexNull).2.2.2 c3cexNullVal rfl
     ⟨⟨rfl, rfl⟩, ⟨.obj [], rfl, rfl, rfl⟩, ⟨[.null], rfl⟩,
      ⟨0, rfl, by decide, by decide⟩,
      ⟨"low".data, rfl, by decide, Or.inl rfl⟩,
      ⟨"ok".data, rfl, by decide⟩, ⟨[], rfl⟩⟩ rfl⟩

/-- C10: a structurally complete response of all the right declared
types whose `summary` (respectively `riskLevel`) is the empty string is
rejected by the schema validator, so the parser fails with
`VALIDATION_ERROR`: the required-field checks test truthiness, not mere
presence. -/
theorem truthiness_validation_rejects_complete_response :
    (jsonParse (stripFences c10cexSummary)).map structurallyComplete = some true
    ∧ (jsonParse (stripFences c10cexSummary)).bind
        (fun v => getField v "summary".data) = some (.str [])
    ∧ parseGeminiResponse c10cexSummary = .error (.gem geminiValidationError)
    ∧ (jsonParse (stripFences c10cexRiskLevel)).map structurallyComplete = some true
    ∧ (jsonParse (stripFences c10cexRiskLevel)).bind
        (fun v => getField v "riskLevel".data) = some (.str [])
    ∧ parseGeminiResponse c10cexRiskLevel = .error (.gem geminiValidationError) :=
  ⟨rfl, rfl, rfl, rfl, rfl, rfl⟩

end RentRelief

namespace RentRelief

/-- C1 (amended): the AI path copies the externally declared
`overallRiskScore` verbatim into the returned `AnalysisResult`; no
cross-check against the §4.3 risk-scoring function is performed, so
the returned score is always the declared one. -/
theorem score_copied_verbatim (s : Str) (r : AnalysisResult)
    (h : parseGeminiResponse s = .ok r) :
    (jsonParse (stripFences s)).bind (fun v => getField v "overallRiskScore".data) =
      some r.overallRiskScore := by
  obtain ⟨v, hv, hval, hconv⟩ := parseOk_inv s r h
  obtain ⟨_, _, hscore, _, _, _⟩ := convertOk_proj v r hconv
  obtain ⟨_, _, _, ⟨n, hn, _⟩, _, _, _⟩ := (validate_iff v).mp hval
  rw [hv]
  show getField v "overallRiskScore".data = some r.overallRiskScore
  rw [hn, hscore, hn]
  rfl

/-- C1 counterexample: a validated response declaring one malicious
high-severity clause (recomputed §4.3 score 30) but a declared score of
80; the result carries the declared 80, not the recomputed 30. -/
theorem declared_score_kept_despite_mismatch :
    scoreJsonOf (parseGeminiResponse c1cex) = some (.num 80)
    ∧ recomputedOf (parseGeminiResponse c1cex) = some 30
    ∧ (80 : Int) ≠ 30 :=
  ⟨rfl, rfl, by decide⟩

/-- C1 witness. -/
theorem score_copied_verbatim_witness :
    (jsonParse (stripFences minimalValidResponse)).bind
      (fun v => getField v "overallRiskScore".data) =
      some minimalValidResult.overallRiskScore :=
  score_copied_verbatim minimalValidResponse minimalValidResult rfl

/-- C5 (amended): every `AnalysisResult` produced by the AI path has
`analysisMethod = "gemini"` (the other value produced in the codebase
being `"keyword"`) and the fixed confidence constant 95. -/
theorem ai_path_method_and_confidence (s : Str) (r : AnalysisResult)
    (h : parseGeminiResponse s = .ok r) :
    r.analysisMethod = "gemini".data ∧ r.confidence = 95 := by
  obtain ⟨v, _, _, hconv⟩ := parseOk_inv s r h
  obtain ⟨_, _, _, _, hm, hc⟩ := convertOk_proj v r hconv
  exact ⟨hm, hc⟩

/-- C5 counterexample: the produced `analysisMethod` is `"gemini"`,
which is not the enumeration value `"ai"` stated by the claim. -/
theorem analysis_method_is_gemini_not_ai :
    methodOf (parseGeminiResponse c5cex) = some ("gemini".data)
    ∧ "gemini".data ≠ "ai".data
    ∧ confidenceOf (parseGeminiResponse c5cex) = some 95 :=
  ⟨rfl, by decide, rfl⟩

/-- C5 witness. -/
theorem ai_path_method_and_confidence_witness :
    minimalValidResult.analysisMethod = "gemini".data ∧ minimalValidResult.confidence = 95 :=
  ai_path_method_and_confidence minimalValidResponse minimalValidResult rfl

end RentRelief

namespace RentRelief

theorem filterMap_tableEntry_cons (dm : Json) (t : Str × Str × Str)
    (ts : List (Str × Str × Str)) :
    (t :: ts).filterMap (tableEntry dm) =
      (match getField dm t.2.1 with
       | some v => if jsTruthy v then [(⟨t.1, v, t.2.2⟩ : KeyDetail)] else []
       | none => []) ++ ts.filterMap (tableEntry dm) := by
  cases h : getField dm t.2.1 with
  | none => simp [List.filterMap_cons, tableEntry, h]
  | some v =>
    by_cases ht : jsTruthy v = true
    · simp [List.filterMap_cons, tableEntry, h, ht]
    · simp [List.filterMap_cons, tableEntry, h, ht]

theorem convertKeyDetails_eq_filterMap (dm : Json) :
    convertKeyDetails dm = keyDetailTable.filterMap (tableEntry dm) := by
  simp only [keyDetailTable, filterMap_tableEntry_cons, List.filterMap_nil, List.append_nil]
  unfold convertKeyDetails
  simp only [List.append_assoc]

theorem labels_filterMap_sublist (dm : Json) (ts : List (Str × Str × Str)) :
    List.Sublist ((ts.filterMap (tableEntry dm)).map KeyDetail.label)
      (ts.map (fun t => t.1)) := by
  induction ts with
  | nil => simp
  | cons t ts ih =>
    rw [filterMap_tableEntry_cons]
    cases h : getField dm t.2.1 with
    | none =>
      simp only [List.nil_append, List.map_cons]
      exact ih.trans (List.sublist_cons_self t.1 _)
    | some v =>
      by_cases ht : jsTruthy v = true
      · simp only [ht, if_true, List.singleton_append, List.map_cons]
        exact List.cons_sublist_cons.mpr ih
      · simp only [ht, if_false, List.nil_append, List.map_cons]
        exact ih.trans (List.sublist_cons_self t.1 _)

/-- C8 (amended): the `keyDetails` of every AI-path result are exactly
the truthy entries of the eight-row label table (one entry per truthy
declared field, none for null or otherwise falsy fields); `tenantName`,
the ninth declared field, is never mapped; and no two entries share a
label. -/
theorem key_details_mapping (s : Str) (r : AnalysisResult)
    (h : parseGeminiResponse s = .ok r) :
    r.keyDetails = keyDetailTable.filterMap (tableEntry (declaredKeyDetailsOf s))
    ∧ (r.keyDetails.map KeyDetail.label).Nodup
    ∧ "Tenant Name".data ∉ r.keyDetails.map KeyDetail.label := by
  obtain ⟨v, hv, _, hconv⟩ := parseOk_inv s r h
  obtain ⟨_, hkd, _, _, _, _⟩ := convertOk_proj v r hconv
  have hdm : declaredKeyDetailsOf s = (getField v "keyDetails".data).getD (.obj []) := by
    unfold declaredKeyDetailsOf
    rw [hv]
    rfl
  have heq : r.keyDetails = keyDetailTable.filterMap (tableEntry (declaredKeyDetailsOf s)) := by
    rw [hkd, hdm, convertKeyDetails_eq_filterMap]
  have hsub := labels_filterMap_sublist (declaredKeyDetailsOf s) keyDetailTable
  refine ⟨heq, ?_, ?_⟩
  · rw [heq]
    exact hsub.nodup (by decide)
  · rw [heq]
    intro hmem
    exact absurd (hsub.subset hmem) (by decide)

/-- C8 counterexample: `tenantName` is declared `"Bob"` (non-null) and
`securityDeposit` is declared `""` (non-null), yet the result's
`keyDetails` contain only the `Monthly Rent` entry — two non-null
declared fields produce no entry. -/
theorem tenant_name_and_empty_field_dropped :
    keyDetailsFieldOf c8cex "tenantName".data = some (.str "Bob".data)
    ∧ isNullJson (.str "Bob".data) = false
    ∧ keyDetailsFieldOf c8cex "securityDeposit".data = some (.str [])
    ∧ isNullJson (.str []) = false
    ∧ labelsOf (parseGeminiResponse c8cex) = some ["Monthly Rent".data] :=
  ⟨rfl, rfl, rfl, rfl, rfl⟩

/-- C8 witness. -/
theorem key_details_mapping_witness :
    keyedValidResult.keyDetails =
      keyDetailTable.filterMap (tableEntry (declaredKeyDetailsOf keyedValidResponse))
    ∧ (keyedValidResult.keyDetails.map KeyDetail.label).Nodup
    ∧ "Tenant Name".data ∉ keyedValidResult.keyDetails.map KeyDetail.label :=
  key_details_mapping keyedValidResponse keyedValidResult rfl

end RentRelief

namespace RentRelief

theorem wrapJson_cons (p : Str) :
    wrapJsonFence p =
      backtickCh :: backtickCh :: backtickCh :: 'j' :: 's' :: 'o' :: 'n' :: '\n' ::
        (p ++ '\n' :: fenceMark) := by
  simp [wrapJsonFence, fenceJsonMark]

theorem wrapPlain_cons (p : Str) :
    wrapPlainFence p =
      backtickCh :: backtickCh :: backtickCh :: '\n' :: (p ++ '\n' :: fenceMark) := by
  simp [wrapPlainFence, fenceMark]

theorem wrapJson_concat (p : Str) :
    wrapJsonFence p =
      (fenceJsonMark ++ '\n' :: (p ++ ['\n', backtickCh, backtickCh])) ++ [backtickCh] := by
  simp [wrapJsonFence, fenceMark, fenceJsonMark]

theorem wrapPlain_concat (p : Str) :
    wrapPlainFence p =
      (fenceMark ++ '\n' :: (p ++ ['\n', backtickCh, backtickCh])) ++ [backtickCh] := by
  simp [wrapPlainFence, fenceMark]

theorem strTrim_wrapJson (p : Str) : strTrim (wrapJsonFence p) = wrapJsonFence p := by
  have h1 : List.dropWhile isWsChar (wrapJsonFence p) = wrapJsonFence p := by
    rw [wrapJson_cons, List.dropWhile_cons]
    simp [show isWsChar backtickCh = false from by decide]
  have h2 : List.rdropWhile isWsChar (wrapJsonFence p) = wrapJsonFence p := by
    rw [wrapJson_concat]
    exact List.rdropWhile_concat_neg _ _ _ (by simp [show isWsChar backtickCh = false from by decide])
  unfold strTrim
  rw [h1, h2]

theorem strTrim_wrapPlain (p : Str) : strTrim (wrapPlainFence p) = wrapPlainFence p := by
  have h1 : List.dropWhile isWsChar (wrapPlainFence p) = wrapPlainFence p := by
    rw [wrapPlain_cons, List.dropWhile_cons]
    simp [show isWsChar backtickCh = false from by decide]
  have h2 : List.rdropWhile isWsChar (wrapPlainFence p) = wrapPlainFence p := by
    rw [wrapPlain_concat]
    exact List.rdropWhile_concat_neg _ _ _ (by simp [show isWsChar backtickCh = false from by decide])
  unfold strTrim
  rw [h1, h2]

theorem stripTail_core (p : Str) :
    stripTrailingFence (List.dropWhile isWsChar ('\n' :: (p ++ '\n' :: fenceMark))) =
      strTrim p := by
  rw [List.dropWhile_cons]
  simp only [show isWsChar '\n' = true from rfl, if_true]
  rw [List.dropWhile_append]
  by_cases hp : (List.dropWhile isWsChar p).isEmpty
  · rw [if_pos hp]
    have hnl : List.dropWhile isWsChar ('\n' :: fenceMark) = fenceMark := by decide
    rw [hnl]
    have h3 : stripTrailingFence fenceMark = [] := by decide
    rw [h3]
    have hp' : List.dropWhile isWsChar p = [] := by
      simpa using hp
    unfold strTrim
    rw [hp']
    rfl
  · rw [if_neg hp]
    have hsplit : List.dropWhile isWsChar p ++ '\n' :: fenceMark =
        (List.dropWhile isWsChar p ++ ['\n']) ++ fenceMark := by
      simp
    have hsuf : fenceMark.isSuffixOf (List.dropWhile isWsChar p ++ '\n' :: fenceMark) = true := by
      rw [List.isSuffixOf_iff_suffix, hsplit]
      exact List.suffix_append _ _
    unfold stripTrailingFence
    rw [if_pos hsuf]
    have hlen : (List.dropWhile isWsChar p ++ '\n' :: fenceMark).length - 3 =
        (List.dropWhile isWsChar p).length + 1 := by
      simp [fenceMark]
    rw [hlen]
    have htake : (List.dropWhile isWsChar p ++ '\n' :: fenceMark).take
        ((List.dropWhile isWsChar p).length + 1) = List.dropWhile isWsChar p ++ ['\n'] := by
      rw [hsplit, show (List.dropWhile isWsChar p).length + 1 =
        (List.dropWhile isWsChar p ++ ['\n']).length by simp]
      exact List.take_left _ _
    rw [htake]
    rw [List.rdropWhile_concat_pos _ _ _ (show isWsChar '\n' = true from rfl)]
    rfl

theorem stripFences_wrapJson (p : Str) : stripFences (wrapJsonFence p) = strTrim p := by
  unfold stripFences
  rw [strTrim_wrapJson]
  have hpre : fenceJsonMark.isPrefixOf (wrapJsonFence p) = true := by
    rw [List.isPrefixOf_iff_prefix]
    unfold wrapJsonFence
    exact List.prefix_append _ _
  rw [if_pos hpre]
  have hdrop : (wrapJsonFence p).drop 7 = '\n' :: (p ++ '\n' :: fenceMark) := by
    rw [wrapJson_cons]
    rfl
  exact hdrop ▸ stripTail_core p

theorem stripFences_wrapPlain (p : Str) : stripFences (wrapPlainFence p) = strTrim p := by
  unfold stripFences
  rw [strTrim_wrapPlain]
  have hjpre : fenceJsonMark.isPrefixOf (wrapPlainFence p) = false := by
    rw [wrapPlain_cons]
    simp [fenceJsonMark, List.isPrefixOf, show (('j' : Char) == '\n') = false from rfl]
  have hpre : fenceMark.isPrefixOf (wrapPlainFence p) = true := by
    rw [List.isPrefixOf_iff_prefix]
    unfold wrapPlainFence
    exact List.prefix_append _ _
  dsimp only
  rw [hjpre]
  simp only [Bool.false_eq_true, if_false]
  rw [if_pos hpre]
  have hdrop : (wrapPlainFence p).drop 3 = '\n' :: (p ++ '\n' :: fenceMark) := by
    rw [wrapPlain_cons]
    rfl
  exact hdrop ▸ stripTail_core p

theorem stripFences_no_fence (p : Str)
    (h : fenceMark.isPrefixOf (strTrim p) = false) : stripFences p = strTrim p := by
  have hj : fenceJsonMark.isPrefixOf (strTrim p) = false := by
    cases hjp : fenceJsonMark.isPrefixOf (strTrim p) with
    | false => rfl
    | true =>
      exfalso
      have hfj : List.IsPrefix fenceMark fenceJsonMark := ⟨['j', 's', 'o', 'n'], rfl⟩
      have h2 : List.IsPrefix fenceMark (strTrim p) :=
        hfj.trans ((List.isPrefixOf_iff_prefix).mp hjp)
      have := (List.isPrefixOf_iff_prefix).mpr h2
      rw [h] at this
      exact absurd this (by simp)
  unfold stripFences
  dsimp only
  rw [hj, h]
  simp

end RentRelief

namespace RentRelief

/-- C4 (amended): for every payload that does not itself begin with a
code-fence marker (after trimming), parsing the payload wrapped in
leading/trailing fence markers (`` ```json `` or `` ``` ``) gives a
result identical to parsing the bare payload — same success value or
same error.  (A payload that itself begins with a fence is mangled
differently in the two cases, see the counterexample.) -/
theorem fence_wrapping_transparent (p : Str)
    (h : fenceMark.isPrefixOf (strTrim p) = false) :
    parseGeminiResponse (wrapJsonFence p) = parseGeminiResponse p
    ∧ parseGeminiResponse (wrapPlainFence p) = parseGeminiResponse p := by
  unfold parseGeminiResponse
  rw [stripFences_wrapJson, stripFences_wrapPlain, stripFences_no_fence p h]
  exact ⟨rfl, rfl⟩

/-- C4 counterexample: for the payload `` ```{}``` `` (which itself
starts with a fence), the bare payload parses to `VALIDATION_ERROR`
while the fence-wrapped payload parses to `PARSE_ERROR` — the two
results differ, so wrapping is not transparent for every payload. -/
theorem fence_wrapping_not_transparent_for_fenced_payload :
    parseGeminiResponse (wrapPlainFence c4payload) = .error (.gem geminiParseError)
    ∧ parseGeminiResponse c4payload = .error (.gem geminiValidationError)
    ∧ geminiParseError ≠ geminiValidationError :=
  ⟨rfl, rfl, by decide⟩

/-- C4 witness. -/
theorem fence_wrapping_transparent_witness :
    parseGeminiResponse (wrapJsonFence minimalValidResponse) =
      parseGeminiResponse minimalValidResponse
    ∧ parseGeminiResponse (wrapPlainFence minimalValidResponse) =
      parseGeminiResponse minimalValidResponse :=
  fence_wrapping_transparent minimalValidResponse (by decide)

end RentRelief

namespace RentRelief

/-- C2 (amended): failures thrown as `GeminiError` — empty response,
parse failure, schema-validation failure — are retried sequentially
with a sleep of `2^attempt` seconds (1s, 2s, 4s) between consecutive
attempts, and only escape once the budget is exhausted (the final
attempt rethrows).  A network/rate-limit failure from the transport,
however, is not a `GeminiError`: it is wrapped as `UNKNOWN_ERROR` and
thrown immediately, with no retry and no sleep, on any attempt. -/
theorem retry_policy (outcomes : List CallOutcome) (attempt remaining mr : Nat)
    (key : Option Str) (contract text msg : Str) (e : GeminiError) :
    (jsTruthyKey key = true →
      (contract.isEmpty || (strTrim contract).length < 100) = false →
      analyzeContractWithGemini key contract mr outcomes = geminiLoop outcomes 0 mr)
    ∧ (outcomes.getD attempt (.netError "fetch failed".data) = .netError msg →
      geminiLoop outcomes attempt (remaining + 1) =
        (.error { message := msg, code := "UNKNOWN_ERROR".data }, []))
    ∧ (outcomes.getD attempt (.netError "fetch failed".data) = .response text →
      attemptStep text = .error (.gem e) →
      geminiLoop outcomes attempt (remaining + 2) =
        ((geminiLoop outcomes (attempt + 1) (remaining + 1)).1,
          2 ^ attempt * 1000 :: (geminiLoop outcomes (attempt + 1) (remaining + 1)).2))
    ∧ (outcomes.getD attempt (.netError "fetch failed".data) = .response text →
      attemptStep text = .error (.gem e) →
      geminiLoop outcomes attempt 1 = (.error e, [])) := by
  refine ⟨?_, ?_, ?_, ?_⟩
  · intro hk hlen
    simp [analyzeContractWithGemini, hk, hlen]
  · intro hnet
    rw [geminiLoop.eq_2, hnet]
  · intro hnet hstep
    rw [show remaining + 2 = (remaining + 1) + 1 from rfl, geminiLoop.eq_2, hnet]
    dsimp only
    rw [hstep]
  · intro hnet hstep
    rw [geminiLoop.eq_2, hnet]
    dsimp only
    rw [hstep]

end RentRelief

namespace RentRelief

/-- C2 counterexample: a rate-limit (network) failure on the very first
of 3 attempts — classified as transient by the claim — is thrown at
once as `UNKNOWN_ERROR`, with zero retries and zero backoff sleeps. -/
theorem network_error_not_retried :
    analyzeContractWithGemini (some "key".data) c2text 3
        [CallOutcome.netError "429 rate limit".data] =
      (.error { message := "429 rate limit".data, code := "UNKNOWN_ERROR".data }, []) :=
  rfl

/-- C2 witness. -/
theorem retry_policy_witness :
    (analyzeContractWithGemini (some "k".data) c2text 3
        [CallOutcome.response "x".data, CallOutcome.response "x".data] =
      geminiLoop [CallOutcome.response "x".data, CallOutcome.response "x".data] 0 3)
    ∧ (geminiLoop [CallOutcome.netError "boom".data] 0 2 =
      (.error { message := "boom".data, code := "UNKNOWN_ERROR".data }, []))
    ∧ (geminiLoop [CallOutcome.response "x".data, CallOutcome.response "x".data] 0 3 =
      ((geminiLoop [CallOutcome.response "x".data, CallOutcome.response "x".data] 1 2).1,
        2 ^ 0 * 1000 ::
          (geminiLoop [CallOutcome.response "x".data, CallOutcome.response "x".data] 1 2).2))
    ∧ (geminiLoop [CallOutcome.response "x".data, CallOutcome.response "x".data] 0 1 =
      (.error geminiParseError, [])) :=
  ⟨(retry_policy [CallOutcome.response "x".data, CallOutcome.response "x".data] 0 1 3
      (some "k".data) c2text "x".data "boom".data geminiParseError).1 rfl rfl,
   (retry_policy [CallOutcome.netError "boom".data] 0 1 3
      (some "k".data) c2text "x".data "boom".data geminiParseError).2.1 rfl,
   (retry_policy [CallOutcome.response "x".data, CallOutcome.response "x".data] 0 1 3
      (some "k".data) c2text "x".data "boom".data geminiParseError).2.2.1 rfl rfl,
   (retry_policy [CallOutcome.response "x".data, CallOutcome.response "x".data] 0 0 3
      (some "k".data) c2text "x".data "boom".data geminiParseError).2.2.2 rfl rfl⟩

/-- C6: the risk level attached to a score is a deterministic total
function of the score alone — 0 maps to low, 1–29 to moderate, 30–59 to
high, 60 and above to critical, for every integer score in [0,100]. -/
theorem risk_level_of_score (s : Int) (h0 : 0 ≤ s) (h100 : s ≤ 100) :
    (s = 0 → (getRiskLevel s).label = "Low Risk".data)
    ∧ (1 ≤ s → s ≤ 29 → (getRiskLevel s).label = "Moderate Risk".data)
    ∧ (30 ≤ s → s ≤ 59 → (getRiskLevel s).label = "High Risk".data)
    ∧ (60 ≤ s → (getRiskLevel s).label = "Critical Risk".data) := by
  unfold getRiskLevel
  refine ⟨?_, ?_, ?_, ?_⟩ <;> intros <;> split_ifs <;> first | rfl | omega

/-- C6 witness. -/
theorem risk_level_of_score_witness :
    (getRiskLevel 45).label = "High Risk".data :=
  (risk_level_of_score 45 (by decide) (by decide)).2.2.1 (by decide) (by decide)

/-- C7: with no credential configured, or with input text whose trimmed
length is below 100 characters, `analyzeContractWithGemini` fails
immediately with the fatal `NO_API_KEY` (respectively `INVALID_INPUT`)
error: the result is independent of the transport outcomes (no network
attempt is consumed) and the list of backoff sleeps is empty. -/
theorem fatal_gates_short_circuit (key : Option Str) (text : Str) (mr : Nat)
    (outcomes : List CallOutcome) :
    (jsTruthyKey key = false →
      analyzeContractWithGemini key text mr outcomes = (.error geminiNoApiKey, []))
    ∧ (jsTruthyKey key = true → (strTrim text).length < 100 →
      analyzeContractWithGemini key text mr outcomes = (.error geminiInvalidInput, [])) := by
  refine ⟨?_, ?_⟩
  · intro hk
    simp [analyzeContractWithGemini, hk]
  · intro hk hlen
    simp [analyzeContractWithGemini, hk, hlen]

/-- C7 witness. -/
theorem fatal_gates_short_circuit_witness :
    (analyzeContractWithGemini none c2text 3 [CallOutcome.response "x".data] =
      (.error geminiNoApiKey, []))
    ∧ (analyzeContractWithGemini (some "k".data) "short".data 3
        [CallOutcome.response "x".data] = (.error geminiInvalidInput, [])) :=
  ⟨(fatal_gates_short_circuit none c2text 3 [CallOutcome.response "x".data]).1 rfl,
   (fatal_gates_short_circuit (some "k".data) "short".data 3
      [CallOutcome.response "x".data]).2 rfl (by decide)⟩

/-- C9: the prompt builder is a pure function of the contract text that
embeds at most its first 50,000 characters — any two texts agreeing on
their first 50,000 characters yield identical prompts. -/
theorem prompt_depends_on_first_50000 (t1 t2 : Str)
    (h : t1.take 50000 = t2.take 50000) :
    buildAnalysisPrompt t1 = buildAnalysisPrompt t2 := by
  unfold buildAnalysisPrompt
  rw [h]

/-- C9 witness: two different 50,001-character texts that agree on
their first 50,000 characters produce the same prompt. -/
theorem prompt_depends_on_first_50000_witness :
    buildAnalysisPrompt (List.replicate 50001 'a') =
      buildAnalysisPrompt (List.replicate 50000 'a' ++ ['b']) :=
  prompt_depends_on_first_50000 (List.replicate 50001 'a')
    (List.replicate 50000 'a' ++ ['b']) (by
      have h1 : (List.replicate 50001 'a').take 50000 = List.replicate 50000 'a' := by
        rw [List.take_replicate]
        norm_num
      have h2 : (List.replicate 50000 'a' ++ ['b']).take 50000 = List.replicate 50000 'a' := by
        have := List.take_left (List.replicate 50000 'a') ['b']
        rwa [List.length_replicate] at this
      exact h1.trans h2.symm)

end RentRelief
